import Mathlib

/-!
Verification of the celery default-configuration resolution module
(airflow/providers/celery/executors/default_celery.py).

The module reads values from a configuration source and assembles a broker
and result-backend configuration record, with validation and SSL handling.
We embed it as a pure function from an explicit configuration-source record
to an Except value carrying either the assembled configuration together
with the warnings logged, or the terminal error.
-/

set_option autoImplicit false

namespace DefaultCelery

/-- Configuration values that can appear in a transport-options mapping:
strings, integers, booleans and nested mappings. -/
inductive Value where
  | str (s : String)
  | int (i : Int)
  | bool (b : Bool)
  | dict (entries : List (String × Value))

/-- Association-list mapping from option names to values, in insertion order. -/
abbrev Options := List (String × Value)

/-- Whether a value is a mapping, as the isinstance dict check in the source. -/
def Value.isDict : Value → Bool
  | .dict _ => true
  | _ => false

/-- String prefix test on character lists, the semantics of startswith. -/
def startsWithStr (s p : String) : Bool :=
  p.toList.isPrefixOf s.toList

/-- Infix test on character lists: the needle occurs contiguously somewhere
in the haystack. -/
def listIsInfix (needle : List Char) : List Char → Bool
  | [] => needle.isEmpty
  | c :: t => needle.isPrefixOf (c :: t) || listIsInfix needle t

/-- Unanchored substring search, the semantics of a literal-alternative
regex search and of the in operator on strings. -/
def strContains (hay needle : String) : Bool :=
  listIsInfix needle.toList hay.toList

/-- From the source: the broker URL supports a visibility timeout when it
starts with one of the four scheme prefixes. -/
def _broker_supports_visibility_timeout (url : String) : Bool :=
  startsWithStr url "redis://" || startsWithStr url "rediss://" ||
    startsWithStr url "sqs://" || startsWithStr url "sentinel://"

/-- From the source: inject visibility_timeout 21600 into the transport
options when the key is absent and the broker scheme supports it. -/
def broker_transport_options_resolved (url : String) (opts : Options) : Options :=
  if (opts.lookup "visibility_timeout").isNone then
    if _broker_supports_visibility_timeout url then
      opts ++ [("visibility_timeout", Value.int 21600)]
    else opts
  else opts

/-- Error kinds a configuration read can raise: the configuration-specific
exception kind, or any other exception. -/
inductive ConfReadError where
  | airflowConfigException (msg : String)
  | otherError (msg : String)

/-- Terminal errors of the resolution: an exception raised by the module
itself, or an exception propagated unchanged from a configuration read. -/
inductive ResolveError where
  | airflowException (msg : String)
  | propagated (e : ConfReadError)

/-- From the source: the transport options passed to celery are a copy of
the resolved options; if sentinel_kwargs is present its value must be a
mapping, otherwise resolution fails with a fixed message. -/
def broker_transport_options_for_celery (opts : Options) :
    Except ResolveError Options :=
  match opts.lookup "sentinel_kwargs" with
  | none => .ok opts
  | some v =>
    if v.isDict then .ok opts
    else .error (.airflowException
      "sentinel_kwargs should be written in the correct dictionary format.")

/-- From the source: the result backend is the explicitly configured value
when present, otherwise db+ prepended to the SQL alchemy connection. -/
def result_backend_resolved (rb : Option String) (conn : String) : String :=
  match rb with
  | some s => s
  | none => "db+" ++ conn

/-- The warning logged when the SSL-active read raises the
configuration-exception kind. -/
def sslInactiveWarning : String := "Celery Executor will run without SSL"

/-- From the source: reading the boolean SSL_ACTIVE option; the
configuration-exception kind is swallowed with a warning and SSL treated as
inactive, any other error propagates. The result pairs the boolean with the
warnings logged. -/
def _get_celery_ssl_active (r : Except ConfReadError Bool) :
    Except ConfReadError (Bool × List String) :=
  match r with
  | .ok b => .ok (b, [])
  | .error (.airflowConfigException _) => .ok (false, [sslInactiveWarning])
  | .error (.otherError m) => .error (.otherError m)

/-- The value of the ssl module constant CERT_REQUIRED. -/
def CERT_REQUIRED : Int := 2

/-- Python truthiness of a string: non-empty. -/
def pyTruthy (s : String) : Bool := !s.toList.isEmpty

/-- The regex rediss?://|sentinel:// searched unanchored equals the presence
of one of three literal substrings. -/
def matches_redis_sentinel (url : String) : Bool :=
  strContains url "redis://" || strContains url "rediss://" ||
    strContains url "sentinel://"

/-- Message of the exception raised when SSL is active but the broker URL
is neither an amqp nor a redis or sentinel URL. -/
def sslUnsupportedBrokerMsg : String :=
  "The broker you configured does not support SSL_ACTIVE to be True. Please use RabbitMQ or Redis if you would like to use SSL for broker."

/-- Message of the exception rewrapping a configuration-exception raised
inside the SSL block. -/
def sslConfigMissingMsg : String :=
  "AirflowConfigException: SSL_ACTIVE is True, please ensure SSL_KEY, SSL_CERT and SSL_CACERT are set"

/-- Message of the exception rewrapping any other exception raised inside
the SSL block, embedding the original message. -/
def sslUnknownErrorMsg (e : String) : String :=
  "Exception: There was an unknown Celery SSL Error. Please ensure you want to use SSL and/or have all necessary certs and key (" ++ e ++ ")."

/-- Exceptions that can be raised inside the try block around the SSL
branch: configuration exceptions from reads, the module's own raise of the
unsupported-broker exception, and any other exception. -/
inductive PyExc where
  | airflowConfigException (msg : String)
  | airflowException (msg : String)
  | otherException (msg : String)

/-- A configuration read raising inside the try block: a config exception
stays a config exception, any other error is some other exception. -/
def liftConfRead (r : Except ConfReadError String) : Except PyExc String :=
  match r with
  | .ok s => .ok s
  | .error (.airflowConfigException m) => .error (.airflowConfigException m)
  | .error (.otherError m) => .error (.otherException m)

/-- From the source, the body of the try block when SSL is active: amqp
brokers get plain key names, redis or sentinel brokers get ssl_ prefixed
key names, anything else raises the unsupported-broker exception. -/
def broker_use_ssl_inner (url : String)
    (k c ca : Except ConfReadError String) : Except PyExc Options :=
  if pyTruthy url && strContains url "amqp://" then
    match liftConfRead k with
    | .error e => .error e
    | .ok kv =>
      match liftConfRead c with
      | .error e => .error e
      | .ok cv =>
        match liftConfRead ca with
        | .error e => .error e
        | .ok cav => .ok [("keyfile", .str kv), ("certfile", .str cv),
            ("ca_certs", .str cav), ("cert_reqs", .int CERT_REQUIRED)]
  else if pyTruthy url && matches_redis_sentinel url then
    match liftConfRead k with
    | .error e => .error e
    | .ok kv =>
      match liftConfRead c with
      | .error e => .error e
      | .ok cv =>
        match liftConfRead ca with
        | .error e => .error e
        | .ok cav => .ok [("ssl_keyfile", .str kv), ("ssl_certfile", .str cv),
            ("ssl_ca_certs", .str cav), ("ssl_cert_reqs", .int CERT_REQUIRED)]
  else
    .error (.airflowException sslUnsupportedBrokerMsg)

/-- From the source, the except clauses around the SSL block: a
configuration exception becomes the fixed ensure-keys message, any other
exception is rewrapped into the unknown-error message embedding it. -/
def broker_use_ssl_resolved (url : String)
    (k c ca : Except ConfReadError String) : Except ResolveError Options :=
  match broker_use_ssl_inner url k c ca with
  | .ok o => .ok o
  | .error (.airflowConfigException _) => .error (.airflowException sslConfigMissingMsg)
  | .error (.airflowException m) => .error (.airflowException (sslUnknownErrorMsg m))
  | .error (.otherException m) => .error (.airflowException (sslUnknownErrorMsg m))

/-- The configuration source: every value the module reads, with the
fallible reads represented as Except values. -/
structure ConfigSource where
  brokerUrl : String
  celeryBrokerTransportOptions : Option Options
  resultBackendOption : Option String
  sqlAlchemyConn : String
  sslActiveRead : Except ConfReadError Bool
  sslKeyRead : Except ConfReadError String
  sslCertRead : Except ConfReadError String
  sslCacertRead : Except ConfReadError String
  workerPrefetchMultiplier : Int
  defaultQueue : String
  taskTrackStarted : Bool
  databaseEngineOptions : Options
  workerConcurrency : Int
  workerEnableRemoteControl : Bool

/-- The assembled configuration record. -/
structure CeleryConfig where
  acceptContent : List String
  eventSerializer : String
  workerPrefetchMultiplier : Int
  taskAcksLate : Bool
  taskDefaultQueue : String
  taskDefaultExchange : String
  taskTrackStarted : Bool
  brokerUrl : String
  brokerTransportOptions : Options
  resultBackend : String
  databaseEngineOptions : Options
  workerConcurrency : Int
  workerEnableRemoteControl : Bool
  brokerUseSsl : Option Options

/-- Assembly of the configuration record from the source's dict literal,
with the broker_use_ssl entry attached afterwards when SSL is active. -/
def assembled_config (c : ConfigSource) (btoCelery : Options)
    (useSsl : Option Options) : CeleryConfig :=
  { acceptContent := ["json"]
    eventSerializer := "json"
    workerPrefetchMultiplier := c.workerPrefetchMultiplier
    taskAcksLate := true
    taskDefaultQueue := c.defaultQueue
    taskDefaultExchange := c.defaultQueue
    taskTrackStarted := c.taskTrackStarted
    brokerUrl := c.brokerUrl
    brokerTransportOptions := btoCelery
    resultBackend := result_backend_resolved c.resultBackendOption
      c.sqlAlchemyConn
    databaseEngineOptions := c.databaseEngineOptions
    workerConcurrency := c.workerConcurrency
    workerEnableRemoteControl := c.workerEnableRemoteControl
    brokerUseSsl := useSsl }

/-- The resolution up to, and excluding, the final result-backend warning
check, in the order of the source module: transport options with the
visibility-timeout default, sentinel_kwargs validation, result backend,
record assembly, SSL activation and the SSL block. -/
def resolveCore (c : ConfigSource) :
    Except ResolveError (CeleryConfig × List String) :=
  match broker_transport_options_for_celery
      (broker_transport_options_resolved c.brokerUrl
        (c.celeryBrokerTransportOptions.getD [])) with
  | .error e => .error e
  | .ok btoCelery =>
    match _get_celery_ssl_active c.sslActiveRead with
    | .error e => .error (.propagated e)
    | .ok (sslActive, ws) =>
      match (if sslActive then
          (broker_use_ssl_resolved c.brokerUrl c.sslKeyRead c.sslCertRead
            c.sslCacertRead).map some
        else .ok none) with
      | .error e => .error e
      | .ok useSsl => .ok (assembled_config c btoCelery useSsl, ws)

/-- The regex rediss?://|amqp://|rpc:// searched unanchored in the result
backend equals the presence of one of four literal substrings. -/
def matches_result_backend_warning (rb : String) : Bool :=
  strContains rb "redis://" || strContains rb "rediss://" ||
    strContains rb "amqp://" || strContains rb "rpc://"

/-- The warning recommending a database result backend, with the configured
value interpolated as the logger does. -/
def result_backend_warning_msg (rb : String) : String :=
  "You have configured a result_backend of " ++ rb ++
    ", it is highly recommended to use an alternative result_backend (i.e. a database)."

/-- The full resolution: the core followed by the non-fatal result-backend
warning check at the end of the module. -/
def resolve (c : ConfigSource) :
    Except ResolveError (CeleryConfig × List String) :=
  (resolveCore c).map (fun p =>
    if matches_result_backend_warning p.1.resultBackend then
      (p.1, p.2 ++ [result_backend_warning_msg p.1.resultBackend])
    else p)

end DefaultCelery

namespace DefaultCelery

/-- Keyed lookup in an options list finds a value appended at the end when
the key was absent from the original list. -/
theorem lookup_append_single (l : Options) (k : String) (v : Value)
    (h : l.lookup k = none) : (l ++ [(k, v)]).lookup k = some v := by
  induction l with
  | nil => simp [List.lookup]
  | cons hd tl ih =>
    obtain ⟨k1, v1⟩ := hd
    cases hk : k == k1 with
    | true => simp [List.lookup, hk] at h
    | false =>
      simp only [List.lookup, hk, List.cons_append] at h ⊢
      exact ih h

/-- C1: for every broker URL starting with one of the scheme prefixes
redis://, rediss://, sqs://, sentinel:// and every transport-options
mapping without the key visibility_timeout, the resolved transport options
contain visibility_timeout equal to 21600. -/
theorem visibility_timeout_injected (url : String) (opts : Options)
    (hvt : opts.lookup "visibility_timeout" = none)
    (hscheme : startsWithStr url "redis://" = true ∨
      startsWithStr url "rediss://" = true ∨
      startsWithStr url "sqs://" = true ∨
      startsWithStr url "sentinel://" = true) :
    (broker_transport_options_resolved url opts).lookup "visibility_timeout"
      = some (Value.int 21600) := by
  have hs : _broker_supports_visibility_timeout url = true := by
    unfold _broker_supports_visibility_timeout
    rcases hscheme with h | h | h | h <;> simp [h]
  unfold broker_transport_options_resolved
  rw [hvt]
  simp only [Option.isNone_none, if_true, hs]
  exact lookup_append_single opts "visibility_timeout" (Value.int 21600) hvt

/-- Witness for C1 at a concrete redis URL and the empty mapping. -/
theorem visibility_timeout_injected_witness :
    ([] : Options).lookup "visibility_timeout" = none ∧
    (broker_transport_options_resolved "redis://localhost:6379/0" []).lookup
      "visibility_timeout" = some (Value.int 21600) :=
  ⟨rfl, visibility_timeout_injected "redis://localhost:6379/0" [] rfl
    (Or.inl (by decide))⟩

/-- C8: a transport-options mapping that already contains visibility_timeout
keeps its value unchanged in the resolved options, for every broker URL. -/
theorem visibility_timeout_preserved (url : String) (opts : Options) (v : Value)
    (h : opts.lookup "visibility_timeout" = some v) :
    (broker_transport_options_resolved url opts).lookup "visibility_timeout"
      = some v := by
  unfold broker_transport_options_resolved
  rw [h]
  simpa using h

/-- Witness for C8 at a concrete redis URL and a mapping presetting the key. -/
theorem visibility_timeout_preserved_witness :
    ([("visibility_timeout", Value.int 5)] : Options).lookup "visibility_timeout"
      = some (Value.int 5) ∧
    (broker_transport_options_resolved "redis://h"
      [("visibility_timeout", Value.int 5)]).lookup "visibility_timeout"
      = some (Value.int 5) :=
  ⟨rfl, visibility_timeout_preserved "redis://h"
    [("visibility_timeout", Value.int 5)] (Value.int 5) rfl⟩

/-- C5: reading SSL_ACTIVE failing with the configuration-exception kind is
swallowed with a warning and SSL treated as inactive, while any other error
kind raised by that read propagates. -/
theorem ssl_active_read_error_handling (r : Except ConfReadError Bool) :
    (∀ m, r = .error (.airflowConfigException m) →
      _get_celery_ssl_active r = .ok (false, [sslInactiveWarning])) ∧
    (∀ m, r = .error (.otherError m) →
      _get_celery_ssl_active r = .error (.otherError m)) := by
  constructor <;> intro m h <;> rw [h] <;> rfl

/-- Witness for C5 at a concrete configuration exception and a concrete
other error. -/
theorem ssl_active_read_error_handling_witness :
    _get_celery_ssl_active (.error (.airflowConfigException "missing option"))
      = .ok (false, [sslInactiveWarning]) ∧
    _get_celery_ssl_active (.error (.otherError "disk failure"))
      = .error (.otherError "disk failure") :=
  ⟨(ssl_active_read_error_handling
      (.error (.airflowConfigException "missing option"))).1 "missing option" rfl,
   (ssl_active_read_error_handling
      (.error (.otherError "disk failure"))).2 "disk failure" rfl⟩

/-- C6: when RESULT_BACKEND is not set the resolved result backend is db+
followed by the SQL alchemy connection; when it is set, the configured
value is used verbatim. -/
theorem result_backend_resolution (rb : Option String) (conn : String) :
    (rb = none → result_backend_resolved rb conn = "db+" ++ conn) ∧
    (∀ s, rb = some s → result_backend_resolved rb conn = s) := by
  constructor
  · intro h; rw [h]; rfl
  · intro s h; rw [h]; rfl

/-- Witness for C6 at a concrete connection string and a concrete
configured backend. -/
theorem result_backend_resolution_witness :
    result_backend_resolved none "postgresql://airflow"
      = "db+" ++ "postgresql://airflow" ∧
    result_backend_resolved (some "redis://results") "postgresql://airflow"
      = "redis://results" :=
  ⟨(result_backend_resolution none "postgresql://airflow").1 rfl,
   (result_backend_resolution (some "redis://results")
      "postgresql://airflow").2 "redis://results" rfl⟩

/-- C7: a sentinel_kwargs entry whose value is not a mapping makes
resolution fail with the fixed validation message, and one whose value is
a mapping is kept unchanged in the resolved transport options. -/
theorem sentinel_kwargs_validation (opts : Options) (v : Value)
    (h : opts.lookup "sentinel_kwargs" = some v) :
    (v.isDict = false → broker_transport_options_for_celery opts =
      .error (.airflowException
        "sentinel_kwargs should be written in the correct dictionary format.")) ∧
    (v.isDict = true → broker_transport_options_for_celery opts = .ok opts) := by
  unfold broker_transport_options_for_celery
  rw [h]
  constructor <;> intro hd <;> simp [hd]

/-- A string containing a non-empty substring is truthy. -/
theorem strContains_pyTruthy (url needle : String)
    (hn : needle.toList.isEmpty = false) (h : strContains url needle = true) :
    pyTruthy url = true := by
  unfold pyTruthy
  cases hl : url.toList with
  | nil =>
    exfalso
    unfold strContains at h
    rw [hl] at h
    simp [listIsInfix] at h
    unfold String.toList at hn
    rw [h] at hn
    simp at hn
  | cons a t => rfl

/-- A broker URL matching the redis or sentinel pattern is truthy. -/
theorem matches_redis_sentinel_pyTruthy (url : String)
    (h : matches_redis_sentinel url = true) : pyTruthy url = true := by
  unfold matches_redis_sentinel at h
  rcases Bool.or_eq_true_iff.mp h with h1 | h2
  · rcases Bool.or_eq_true_iff.mp h1 with h3 | h4
    · exact strContains_pyTruthy url "redis://" (by decide) h3
    · exact strContains_pyTruthy url "rediss://" (by decide) h4
  · exact strContains_pyTruthy url "sentinel://" (by decide) h2

/-- When the broker URL is truthy and contains amqp and the three SSL reads
succeed, the SSL block yields the plain key names. -/
theorem block_amqp_ok (url : String) (k c ca : Except ConfReadError String)
    (kv cv cav : String) (hne : pyTruthy url = true)
    (hamqp : strContains url "amqp://" = true)
    (hk : k = .ok kv) (hc : c = .ok cv) (hca : ca = .ok cav) :
    broker_use_ssl_resolved url k c ca = .ok
      [("keyfile", Value.str kv), ("certfile", Value.str cv),
        ("ca_certs", Value.str cav), ("cert_reqs", Value.int CERT_REQUIRED)] := by
  unfold broker_use_ssl_resolved broker_use_ssl_inner
  rw [hne, hamqp, hk, hc, hca]
  rfl

/-- When the broker URL does not contain amqp, matches the redis or
sentinel pattern, and the three SSL reads succeed, the SSL block yields
the prefixed key names. -/
theorem block_redis_ok (url : String) (k c ca : Except ConfReadError String)
    (kv cv cav : String)
    (hamqp : strContains url "amqp://" = false)
    (hmatch : matches_redis_sentinel url = true)
    (hk : k = .ok kv) (hc : c = .ok cv) (hca : ca = .ok cav) :
    broker_use_ssl_resolved url k c ca = .ok
      [("ssl_keyfile", Value.str kv), ("ssl_certfile", Value.str cv),
        ("ssl_ca_certs", Value.str cav), ("ssl_cert_reqs", Value.int CERT_REQUIRED)] := by
  have hne : pyTruthy url = true := matches_redis_sentinel_pyTruthy url hmatch
  unfold broker_use_ssl_resolved broker_use_ssl_inner
  rw [hne, hamqp, hmatch, hk, hc, hca]
  rfl

/-- When the broker URL neither contains amqp nor matches the redis or
sentinel pattern, the SSL block raises the unsupported-broker exception,
rewrapped by the except clause into the unknown-error message. -/
theorem block_unsupported (url : String) (k c ca : Except ConfReadError String)
    (hamqp : strContains url "amqp://" = false)
    (hmatch : matches_redis_sentinel url = false) :
    broker_use_ssl_resolved url k c ca =
      .error (.airflowException (sslUnknownErrorMsg sslUnsupportedBrokerMsg)) := by
  unfold broker_use_ssl_resolved broker_use_ssl_inner
  rw [hamqp, hmatch]
  simp

/-- When the sentinel validation passes, the SSL-active read yields true
and the SSL block succeeds, the core resolution assembles the record with
the SSL options attached and no warning logged. -/
theorem resolveCore_ssl_ok (c : ConfigSource) (opts ssl : Options)
    (hbto : broker_transport_options_for_celery
      (broker_transport_options_resolved c.brokerUrl
        (c.celeryBrokerTransportOptions.getD [])) = .ok opts)
    (hssl : c.sslActiveRead = .ok true)
    (hblock : broker_use_ssl_resolved c.brokerUrl c.sslKeyRead c.sslCertRead
      c.sslCacertRead = .ok ssl) :
    resolveCore c = .ok (assembled_config c opts (some ssl), []) := by
  unfold resolveCore
  rw [hbto, hssl, hblock]
  rfl

/-- When the sentinel validation passes, the SSL-active read yields true
and the SSL block fails, the core resolution fails with that error. -/
theorem resolveCore_ssl_err (c : ConfigSource) (opts : Options)
    (e : ResolveError)
    (hbto : broker_transport_options_for_celery
      (broker_transport_options_resolved c.brokerUrl
        (c.celeryBrokerTransportOptions.getD [])) = .ok opts)
    (hssl : c.sslActiveRead = .ok true)
    (hblock : broker_use_ssl_resolved c.brokerUrl c.sslKeyRead c.sslCertRead
      c.sslCacertRead = .error e) :
    resolveCore c = .error e := by
  unfold resolveCore
  rw [hbto, hssl, hblock]
  rfl

/-- A failing core resolution makes the full resolution fail identically. -/
theorem resolve_err_of_core (c : ConfigSource) (e : ResolveError)
    (h : resolveCore c = .error e) : resolve c = .error e := by
  unfold resolve
  rw [h]
  rfl

/-- A successful core resolution makes the full resolution succeed with
the same record, possibly extending the warnings. -/
theorem resolve_ok_exists (c : ConfigSource) (cfg : CeleryConfig)
    (ws : List String) (h : resolveCore c = .ok (cfg, ws)) :
    ∃ ws2, resolve c = .ok (cfg, ws2) := by
  unfold resolve
  rw [h]
  cases hm : matches_result_backend_warning cfg.resultBackend
  · exact ⟨ws, by simp [Except.map, hm]⟩
  · exact ⟨ws ++ [result_backend_warning_msg cfg.resultBackend],
      by simp [Except.map, hm]⟩

/-- Witness for C7 at a non-mapping value and at a mapping value. -/
theorem sentinel_kwargs_validation_witness :
    broker_transport_options_for_celery [("sentinel_kwargs", Value.str "oops")]
      = .error (.airflowException
        "sentinel_kwargs should be written in the correct dictionary format.") ∧
    broker_transport_options_for_celery
        [("sentinel_kwargs", Value.dict [("master_name", Value.str "m")])]
      = .ok [("sentinel_kwargs", Value.dict [("master_name", Value.str "m")])] :=
  ⟨(sentinel_kwargs_validation [("sentinel_kwargs", Value.str "oops")]
      (Value.str "oops") rfl).1 rfl,
   (sentinel_kwargs_validation
      [("sentinel_kwargs", Value.dict [("master_name", Value.str "m")])]
      (Value.dict [("master_name", Value.str "m")]) rfl).2 rfl⟩

/-- A concrete configuration source used to instantiate the resolution
theorems on specific inputs. -/
def baseConf : ConfigSource :=
  { brokerUrl := "redis://localhost:6379/0"
    celeryBrokerTransportOptions := none
    resultBackendOption := none
    sqlAlchemyConn := "postgresql://airflow"
    sslActiveRead := .ok false
    sslKeyRead := .ok "key.pem"
    sslCertRead := .ok "cert.pem"
    sslCacertRead := .ok "ca.pem"
    workerPrefetchMultiplier := 1
    defaultQueue := "default"
    taskTrackStarted := true
    databaseEngineOptions := []
    workerConcurrency := 16
    workerEnableRemoteControl := true }

/-- C2: with SSL active and a broker URL neither containing amqp nor
matching the redis or sentinel pattern, resolution fails and the error
message tells the user the broker does not support SSL_ACTIVE and to use
RabbitMQ or Redis. -/
theorem ssl_unsupported_broker_fails (c : ConfigSource) (opts : Options)
    (hbto : broker_transport_options_for_celery
      (broker_transport_options_resolved c.brokerUrl
        (c.celeryBrokerTransportOptions.getD [])) = .ok opts)
    (hssl : c.sslActiveRead = .ok true)
    (hamqp : strContains c.brokerUrl "amqp://" = false)
    (hmatch : matches_redis_sentinel c.brokerUrl = false) :
    ∃ m, resolve c = .error (.airflowException m) ∧
      strContains m "does not support SSL_ACTIVE" = true ∧
      strContains m "Please use RabbitMQ or Redis" = true := by
  refine ⟨sslUnknownErrorMsg sslUnsupportedBrokerMsg, ?_, by decide, by decide⟩
  exact resolve_err_of_core c _ (resolveCore_ssl_err c opts _ hbto hssl
    (block_unsupported c.brokerUrl c.sslKeyRead c.sslCertRead c.sslCacertRead
      hamqp hmatch))

/-- Witness for C2 at a concrete sqs broker URL. -/
theorem ssl_unsupported_broker_fails_witness :
    ∃ m, resolve { baseConf with brokerUrl := "sqs://host", sslActiveRead := .ok true }
        = .error (.airflowException m) ∧
      strContains m "does not support SSL_ACTIVE" = true ∧
      strContains m "Please use RabbitMQ or Redis" = true :=
  ssl_unsupported_broker_fails
    { baseConf with brokerUrl := "sqs://host", sslActiveRead := .ok true }
    [("visibility_timeout", Value.int 21600)] rfl rfl (by decide) (by decide)

/-- C3: with SSL active and a non-empty broker URL containing amqp, the
SSL options attached to the record have exactly the plain key names
keyfile, certfile, ca_certs and cert_reqs, sourced from the three SSL
reads with cert_reqs the CERT_REQUIRED constant. -/
theorem ssl_amqp_plain_keys (c : ConfigSource) (opts : Options)
    (kv cv cav : String)
    (hbto : broker_transport_options_for_celery
      (broker_transport_options_resolved c.brokerUrl
        (c.celeryBrokerTransportOptions.getD [])) = .ok opts)
    (hssl : c.sslActiveRead = .ok true)
    (hne : pyTruthy c.brokerUrl = true)
    (hamqp : strContains c.brokerUrl "amqp://" = true)
    (hk : c.sslKeyRead = .ok kv) (hc : c.sslCertRead = .ok cv)
    (hca : c.sslCacertRead = .ok cav) :
    ∃ cfg ws, resolve c = .ok (cfg, ws) ∧
      cfg.brokerUseSsl = some
        [("keyfile", Value.str kv), ("certfile", Value.str cv),
          ("ca_certs", Value.str cav), ("cert_reqs", Value.int CERT_REQUIRED)] := by
  have hcore := resolveCore_ssl_ok c opts _ hbto hssl
    (block_amqp_ok c.brokerUrl c.sslKeyRead c.sslCertRead c.sslCacertRead
      kv cv cav hne hamqp hk hc hca)
  obtain ⟨ws2, hres⟩ := resolve_ok_exists c _ [] hcore
  exact ⟨_, ws2, hres, rfl⟩

/-- Witness for C3 at a concrete amqp broker URL. -/
theorem ssl_amqp_plain_keys_witness :
    ∃ cfg ws, resolve { baseConf with brokerUrl := "amqp://host", sslActiveRead := .ok true }
        = .ok (cfg, ws) ∧
      cfg.brokerUseSsl = some
        [("keyfile", Value.str "key.pem"), ("certfile", Value.str "cert.pem"),
          ("ca_certs", Value.str "ca.pem"), ("cert_reqs", Value.int CERT_REQUIRED)] :=
  ssl_amqp_plain_keys
    { baseConf with brokerUrl := "amqp://host", sslActiveRead := .ok true }
    [] "key.pem" "cert.pem" "ca.pem" rfl rfl (by decide) (by decide) rfl rfl rfl

/-- C4: with SSL active and a broker URL not containing amqp but matching
the redis or sentinel pattern, the SSL options attached to the record have
exactly the prefixed key names ssl_keyfile, ssl_certfile, ssl_ca_certs and
ssl_cert_reqs, sourced from the three SSL reads with ssl_cert_reqs the
CERT_REQUIRED constant. -/
theorem ssl_redis_prefixed_keys (c : ConfigSource) (opts : Options)
    (kv cv cav : String)
    (hbto : broker_transport_options_for_celery
      (broker_transport_options_resolved c.brokerUrl
        (c.celeryBrokerTransportOptions.getD [])) = .ok opts)
    (hssl : c.sslActiveRead = .ok true)
    (hamqp : strContains c.brokerUrl "amqp://" = false)
    (hmatch : matches_redis_sentinel c.brokerUrl = true)
    (hk : c.sslKeyRead = .ok kv) (hc : c.sslCertRead = .ok cv)
    (hca : c.sslCacertRead = .ok cav) :
    ∃ cfg ws, resolve c = .ok (cfg, ws) ∧
      cfg.brokerUseSsl = some
        [("ssl_keyfile", Value.str kv), ("ssl_certfile", Value.str cv),
          ("ssl_ca_certs", Value.str cav), ("ssl_cert_reqs", Value.int CERT_REQUIRED)] := by
  have hcore := resolveCore_ssl_ok c opts _ hbto hssl
    (block_redis_ok c.brokerUrl c.sslKeyRead c.sslCertRead c.sslCacertRead
      kv cv cav hamqp hmatch hk hc hca)
  obtain ⟨ws2, hres⟩ := resolve_ok_exists c _ [] hcore
  exact ⟨_, ws2, hres, rfl⟩

/-- Witness for C4 at a concrete rediss broker URL. -/
theorem ssl_redis_prefixed_keys_witness :
    ∃ cfg ws, resolve { baseConf with brokerUrl := "rediss://host", sslActiveRead := .ok true }
        = .ok (cfg, ws) ∧
      cfg.brokerUseSsl = some
        [("ssl_keyfile", Value.str "key.pem"), ("ssl_certfile", Value.str "cert.pem"),
          ("ssl_ca_certs", Value.str "ca.pem"), ("ssl_cert_reqs", Value.int CERT_REQUIRED)] :=
  ssl_redis_prefixed_keys
    { baseConf with brokerUrl := "rediss://host", sslActiveRead := .ok true }
    [("visibility_timeout", Value.int 21600)] "key.pem" "cert.pem" "ca.pem"
    rfl rfl (by decide) (by decide) rfl rfl rfl

/-- C10: the amqp substring test is evaluated before the redis or sentinel
pattern test, so a non-empty broker URL containing amqp that also matches
the redis or sentinel pattern gets the plain key names. -/
theorem ssl_amqp_branch_precedence (c : ConfigSource) (opts : Options)
    (kv cv cav : String)
    (hbto : broker_transport_options_for_celery
      (broker_transport_options_resolved c.brokerUrl
        (c.celeryBrokerTransportOptions.getD [])) = .ok opts)
    (hssl : c.sslActiveRead = .ok true)
    (hne : pyTruthy c.brokerUrl = true)
    (hamqp : strContains c.brokerUrl "amqp://" = true)
    (_hmatch : matches_redis_sentinel c.brokerUrl = true)
    (hk : c.sslKeyRead = .ok kv) (hc : c.sslCertRead = .ok cv)
    (hca : c.sslCacertRead = .ok cav) :
    ∃ cfg ws, resolve c = .ok (cfg, ws) ∧
      cfg.brokerUseSsl = some
        [("keyfile", Value.str kv), ("certfile", Value.str cv),
          ("ca_certs", Value.str cav), ("cert_reqs", Value.int CERT_REQUIRED)] := by
  have hcore := resolveCore_ssl_ok c opts _ hbto hssl
    (block_amqp_ok c.brokerUrl c.sslKeyRead c.sslCertRead c.sslCacertRead
      kv cv cav hne hamqp hk hc hca)
  obtain ⟨ws2, hres⟩ := resolve_ok_exists c _ [] hcore
  exact ⟨_, ws2, hres, rfl⟩

/-- Witness for C10 at a rediss URL with amqp embedded later in the
string: it matches the redis pattern and still gets the plain key names. -/
theorem ssl_amqp_branch_precedence_witness :
    matches_redis_sentinel "rediss://host?fallback=amqp://y" = true ∧
    ∃ cfg ws, resolve { baseConf with brokerUrl := "rediss://host?fallback=amqp://y", sslActiveRead := .ok true }
        = .ok (cfg, ws) ∧
      cfg.brokerUseSsl = some
        [("keyfile", Value.str "key.pem"), ("certfile", Value.str "cert.pem"),
          ("ca_certs", Value.str "ca.pem"), ("cert_reqs", Value.int CERT_REQUIRED)] :=
  ⟨by decide,
   ssl_amqp_branch_precedence
    { baseConf with brokerUrl := "rediss://host?fallback=amqp://y", sslActiveRead := .ok true }
    [("visibility_timeout", Value.int 21600)] "key.pem" "cert.pem" "ca.pem"
    rfl rfl (by decide) (by decide) (by decide) rfl rfl rfl⟩

/-- C9: when the core resolution succeeds and the resolved result backend
matches the redis, amqp or rpc pattern, the warning recommending a
database result backend is appended and resolution still succeeds with
the record unchanged. -/
theorem result_backend_warning_nonfatal (c : ConfigSource)
    (cfg : CeleryConfig) (ws : List String)
    (h : resolveCore c = .ok (cfg, ws))
    (hm : matches_result_backend_warning cfg.resultBackend = true) :
    resolve c = .ok (cfg, ws ++ [result_backend_warning_msg cfg.resultBackend]) := by
  unfold resolve
  rw [h]
  simp [Except.map, hm]

/-- Witness for C9 at a concrete amqp result backend with SSL inactive. -/
theorem result_backend_warning_nonfatal_witness :
    resolve { baseConf with resultBackendOption := some "amqp://x" } =
      .ok (assembled_config { baseConf with resultBackendOption := some "amqp://x" }
        [("visibility_timeout", Value.int 21600)] none,
        [result_backend_warning_msg "amqp://x"]) :=
  result_backend_warning_nonfatal
    { baseConf with resultBackendOption := some "amqp://x" }
    (assembled_config { baseConf with resultBackendOption := some "amqp://x" }
      [("visibility_timeout", Value.int 21600)] none)
    [] rfl (by decide)

end DefaultCelery
